import Mathlib

/-!
Verification development for the go-sarah orchestration runtime and its gitter
adapter. Definitions are shallow embeddings of the Go source: pure functions
mirror the Go control flow, channel sends and log calls become explicit action
values, and panics become `Except.error`. Machine details that the claims do
not touch (network transport, timing of the retry sleep interval) are
abstracted into per-attempt / per-iteration outcome parameters.
-/

namespace Gitter

/-- Log severities used by the `log` package calls in the source. -/
inductive Severity where
  | error
  | warn
  | info
  deriving DecidableEq, Repr

/-- A gitter Room (only the identity matters for the claims). -/
structure Room where
  id : String
  deriving DecidableEq, Repr

/-- A received message, the `sarah.BotInput` forwarded by the receive loop. -/
structure Message where
  body : String
  deriving DecidableEq, Repr

/-- Outcome of one `messageReceiver.Receive()` call in
`receiveMessageRecursive`: a successful message (`err == nil`), the
`EmptyPayloadError` sentinel (keep-alive), a `*MalformedPayloadError`, or any
other non-nil error. -/
inductive RecvResult where
  | msg (m : Message)
  | emptyPayload
  | malformed (desc : String)
  | fatal (e : String)
  deriving DecidableEq, Repr

/-- Observable output of the receive loop over a finite trace of Receive
outcomes: the messages pushed onto the `receivedMessage` channel in order, the
warning log lines emitted, and the returned error (`none` when the trace is
exhausted while the Go loop would still be blocked in `Receive`). -/
structure RecvLoopOut where
  forwarded : List Message
  warnings : List String
  result : Option String
  deriving DecidableEq, Repr

/-- Shallow embedding of `receiveMessageRecursive` (gitter adapter source):
`EmptyPayloadError` is skipped silently and the loop continues; a
`*MalformedPayloadError` is logged via `log.Warnf` and the loop continues; any
other non-nil error is returned at once; otherwise the message is sent on the
`receivedMessage` channel and the loop continues. -/
def receiveMessageRecursive : List RecvResult → RecvLoopOut
  | [] => ⟨[], [], none⟩
  | RecvResult.emptyPayload :: rest => receiveMessageRecursive rest
  | RecvResult.malformed d :: rest =>
    let out := receiveMessageRecursive rest
    ⟨out.forwarded, ("skipping malformed input: " ++ d) :: out.warnings, out.result⟩
  | RecvResult.fatal e :: _ => ⟨[], [], some e⟩
  | RecvResult.msg m :: rest =>
    let out := receiveMessageRecursive rest
    ⟨m :: out.forwarded, out.warnings, out.result⟩

/-- Whether a Receive outcome is a loop-terminating error (neither keep-alive
nor malformed nor a successful message). -/
def RecvResult.isFatal : RecvResult → Bool
  | RecvResult.fatal _ => true
  | _ => false

/-- Spec-side description (C1): the messages forwarded are exactly the
successful messages occurring strictly before the first fatal error, in
order. -/
def specForwarded (evs : List RecvResult) : List Message :=
  (evs.takeWhile (fun e => ¬ e.isFatal)).filterMap
    (fun e => match e with | RecvResult.msg m => some m | _ => none)

/-- Spec-side description (C1): the warnings are one line per malformed
payload occurring strictly before the first fatal error. -/
def specWarnings (evs : List RecvResult) : List String :=
  (evs.takeWhile (fun e => ¬ e.isFatal)).filterMap
    (fun e => match e with
      | RecvResult.malformed d => some ("skipping malformed input: " ++ d)
      | _ => none)

/-- Spec-side description (C1): the loop returns exactly the first fatal
error, and returns nothing if no fatal error occurs in the trace. -/
def specResult (evs : List RecvResult) : Option String :=
  match evs.dropWhile (fun e => ¬ e.isFatal) with
  | RecvResult.fatal e :: _ => some e
  | _ => none

/-- One observable action of the per-room loop `runEachRoom` or of
`Adapter.Run`: the connection-lifecycle steps, the log calls, and the one
channel push `Adapter.Run` may perform on `errCh`. -/
inductive RoomAction where
  | connected
  | closedConn
  | warnNoConnect
  | logConnErr (e : String)
  | pushFatalToErrCh (e : String)
  deriving DecidableEq, Repr

/-- Why the per-room loop returned. -/
inductive RoomExit where
  | ctxDone
  | connectFailed
  | cleanClose
  | scriptEnd
  deriving DecidableEq, Repr

/-- Environment of one iteration of the `for` loop in `runEachRoom`: whether
`ctx.Done()` fires in the `select` at the top, whether `connectRoom`
(internally 10 retries) eventually succeeds, and what
`receiveMessageRecursive` returns for the established connection (`none`
models a nil return, a non-nil error otherwise). -/
structure RoomIter where
  ctxCancelled : Bool
  connectOk : Bool
  recvErr : Option String
  deriving DecidableEq, Repr

/-- Shallow embedding of `Adapter.runEachRoom`: each loop iteration first
selects on `ctx.Done()` and returns if cancelled; otherwise it connects, and
on connect failure logs a warning and returns; on success it runs the receive
loop, closes the connection, returns when the receive loop returned nil, and
otherwise logs the error and re-enters the loop (reconnect). -/
def runEachRoom : List RoomIter → List RoomAction × RoomExit
  | [] => ([], RoomExit.scriptEnd)
  | it :: rest =>
    if it.ctxCancelled then ([], RoomExit.ctxDone)
    else if ¬ it.connectOk then ([RoomAction.warnNoConnect], RoomExit.connectFailed)
    else
      match it.recvErr with
      | none => ([RoomAction.connected, RoomAction.closedConn], RoomExit.cleanClose)
      | some e =>
        let (as, ex) := runEachRoom rest
        (RoomAction.connected :: RoomAction.closedConn :: RoomAction.logConnErr e :: as, ex)

/-- Outcome of the initial `fetchRooms` call in `Adapter.Run`. -/
inductive FetchResult where
  | ok (rooms : List Room)
  | failed (e : String)
  deriving DecidableEq, Repr

/-- Observable behaviour of one `Adapter.Run` call: what it pushed onto
`errCh`, the rooms for which it spawned a `runEachRoom` goroutine, and
whether the call itself returned without any blocking wait on the context. -/
structure RunOutcome where
  pushedErrCh : List RoomAction
  spawnedRooms : List Room
  returnsWithoutBlocking : Bool
  deriving DecidableEq, Repr

/-- Shallow embedding of `Adapter.Run` (gitter): it fetches the joined rooms;
on failure it pushes a non-continuable error onto `errCh` and returns; on
success it starts one `runEachRoom` goroutine per room and returns. Neither
branch of the Go function body contains a receive, select or wait on the
context, so the call returns without blocking in both cases; the field
`returnsWithoutBlocking` records this. -/
def adapterRun : FetchResult → RunOutcome
  | FetchResult.failed e => ⟨[RoomAction.pushFatalToErrCh e], [], true⟩
  | FetchResult.ok rooms => ⟨[], rooms, true⟩

/-- Content part of a `sarah.BotOutput` as seen by the type switch in
`Adapter.SendMessage`: either a string or some other dynamic type. -/
inductive OutputContent where
  | str (s : String)
  | nonString (tag : String)
  deriving DecidableEq, Repr

/-- Destination part of a `sarah.BotOutput` as seen by the `*Room` type
assertion in `Adapter.SendMessage`. -/
inductive OutputDestination where
  | room (r : Room)
  | nonRoom (tag : String)
  deriving DecidableEq, Repr

/-- A `sarah.BotOutput` value handed to `Adapter.SendMessage`. -/
structure BotOutput where
  content : OutputContent
  destination : OutputDestination
  deriving DecidableEq, Repr

/-- One observable action of `Adapter.SendMessage`: a REST post or a log
call. -/
inductive SendAction where
  | postMessage (r : Room) (text : String)
  | logAt (sev : Severity) (msg : String)
  deriving DecidableEq, Repr

/-- Shallow embedding of `Adapter.SendMessage`: on string content whose
destination asserts to `*Room` it posts via the REST client; on string
content with any other destination it logs at error severity and returns; on
non-string content it logs a warning. The Go function returns no error and
has no panicking operation. -/
def sendMessage (o : BotOutput) : List SendAction :=
  match o.content with
  | OutputContent.str content =>
    match o.destination with
    | OutputDestination.room r => [SendAction.postMessage r content]
    | OutputDestination.nonRoom t =>
      [SendAction.logAt Severity.error ("Destination is not instance of Room. " ++ t)]
  | OutputContent.nonString t => [SendAction.logAt Severity.warn ("unexpected output " ++ t)]

/-- Whether a retry attempt outcome is a success. -/
def exceptOk : Except String Nat → Bool
  | Except.ok _ => true
  | Except.error _ => false

/-- Modelled from the spec: the bounded-retry helper `retry.RetryInterval` of
the repository package `retry` is not under src/ (only its callers
`connectRoom` and `fetchRooms` are). The spec describes it as a generic
bounded-retry-with-interval helper with a fixed attempt cap and a fixed sleep
interval between attempts; exhausting the cap surfaces the failure as an
error to the caller, and a success stops further attempts. Given the outcome
of each attempt (indexed from 0), `retryGo` performs up to `fuel` attempts
starting at index `i`, stopping at the first success; it returns the final
result together with the total number of attempts performed. -/
def retryGo (att : Nat → Except String Nat) : Nat → Nat → Except String Nat × Nat
  | 0, _ => (Except.error "retry: no attempt allowed", 0)
  | fuel + 1, i =>
    match att i with
    | Except.ok a => (Except.ok a, i + 1)
    | Except.error e =>
      if fuel = 0 then (Except.error e, i + 1) else retryGo att fuel (i + 1)

/-- Modelled from the spec (see `retryGo`): `retry.RetryInterval(cap, fn,
interval)` runs `fn` up to `cap` times. -/
def retryInterval (cap : Nat) (att : Nat → Except String Nat) : Except String Nat × Nat :=
  retryGo att cap 0

/-- Shallow embedding of `Adapter.connectRoom`: wraps the streaming-API
connect attempt in `retry.RetryInterval(10, ..., 500ms)`; the per-attempt
outcome is abstracted as `att`, a successful attempt yielding a connection
identifier. -/
def connectRoom (att : Nat → Except String Nat) : Except String Nat × Nat :=
  retryInterval 10 att

/-- Shallow embedding of `Adapter.fetchRooms`: wraps the REST rooms fetch in
`retry.RetryInterval(10, ..., 500ms)`; the per-attempt outcome is abstracted
as `att`, a successful attempt yielding a rooms-list identifier. -/
def fetchRooms (att : Nat → Except String Nat) : Except String Nat × Nat :=
  retryInterval 10 att

end Gitter

namespace Sarah

/-- A registered Bot as the Runner sees it: its BotType (string-like opaque
identifier) and its plugin config directory. -/
structure Bot where
  botType : String
  configDir : String
  deriving DecidableEq, Repr

/-- An Adapter handed to `Runner.RegisterAdapter`; only its BotType matters
for registration. -/
structure AdapterHandle where
  botType : String
  deriving DecidableEq, Repr

/-- The Runner state relevant to registration: the ordered Bot list. -/
structure Runner where
  bots : List Bot
  deriving DecidableEq, Repr

/-- Shallow embedding of `newBot`: wraps the Adapter in the default Bot
implementation with the given plugin config directory. -/
def newBot (a : AdapterHandle) (pluginConfigDir : String) : Bot :=
  ⟨a.botType, pluginConfigDir⟩

/-- Shallow embedding of `Runner.RegisterBot`: it appends the given Bot to
`runner.bots` unconditionally — the Go method body is a single append with no
duplicate inspection. -/
def Runner.registerBot (r : Runner) (b : Bot) : Runner :=
  ⟨r.bots ++ [b]⟩

/-- Shallow embedding of `Runner.RegisterAdapter`: it iterates over the
stored Bots and panics (modelled as `Except.error` with the panic message)
when one has the same BotType as the given Adapter; otherwise it builds the
default Bot and feeds it to RegisterBot. -/
def Runner.registerAdapter (r : Runner) (a : AdapterHandle) (pluginConfigDir : String) :
    Except String Runner :=
  if r.bots.any (fun b => b.botType == a.botType) then
    Except.error ("BotType (" ++ a.botType ++ ") conflicted with stored Adapter.")
  else
    Except.ok (r.registerBot (newBot a pluginConfigDir))

/-- A built ScheduledTask as registered with cron in `Runner.Run`: its
Identifier, its cron expression from `task.config.Schedule()`, and its
default destination from `task.config.Destination()`. -/
structure Task where
  identifier : String
  schedule : String
  destination : String
  deriving DecidableEq, Repr

/-- Result of `task.Execute(botCtx)` or of a command response: the content
carried to `SendMessage`. -/
structure ExecResult where
  content : String
  deriving DecidableEq, Repr

/-- An output message as built by `NewOutputMessage(destination, content)`. -/
structure OutputMessage where
  destination : String
  content : String
  deriving DecidableEq, Repr

/-- Shallow embedding of `NewOutputMessage`. -/
def NewOutputMessage (destination content : String) : OutputMessage :=
  ⟨destination, content⟩

/-- One observable action of a job body run by the Runner side: executing a
task, a log call at some severity, or a `bot.SendMessage` call. -/
inductive JobAction where
  | executeTask (identifier : String)
  | logAt (sev : Gitter.Severity) (msg : String)
  | sendMessage (m : OutputMessage)
  deriving DecidableEq, Repr

/-- Where a piece of work is run: handed to `runner.worker` through
`EnqueueJob` (the shared Worker Pool queue), or executed inline in the
calling goroutine (for the cron callback, the cron scheduler goroutine). -/
inductive WorkDispatch where
  | viaWorkerPool (job : List JobAction)
  | directInCaller (actions : List JobAction)
  deriving DecidableEq, Repr

/-- Shallow embedding of the closure body registered with
`runner.cron.AddFunc` in `Runner.Run` for a scheduled task: it calls
`task.Execute(botCtx)`; on error it logs and returns; on nil result it
returns; otherwise it builds `NewOutputMessage(task.config.Destination(),
res.Content)` and calls `bot.SendMessage`. `execResult` abstracts the outcome
of the Execute call. -/
def cronCallbackBody (task : Task) (execResult : Except String (Option ExecResult)) :
    List JobAction :=
  JobAction.executeTask task.identifier ::
    match execResult with
    | Except.error _ =>
      [JobAction.logAt Gitter.Severity.error ("error on scheduled task: " ++ task.identifier)]
    | Except.ok none => []
    | Except.ok (some res) =>
      [JobAction.sendMessage (NewOutputMessage task.destination res.content)]

/-- Shallow embedding of what a cron firing does in `Runner.Run`: the closure
passed to `cron.AddFunc` runs its body directly in the cron scheduler
goroutine — the registration loop never calls `runner.EnqueueJob` and the
closure body contains no enqueue. -/
def cronFiring (task : Task) (execResult : Except String (Option ExecResult)) : WorkDispatch :=
  WorkDispatch.directInCaller (cronCallbackBody task execResult)

/-- An Input as consumed by `Runner.respond`: its payload and the
reply-destination returned by `input.ReplyTo()`. -/
structure Input where
  payload : String
  replyTo : String
  deriving DecidableEq, Repr

/-- Shallow embedding of the job closure enqueued by `Runner.respond` for one
Input: it calls `bot.Respond(botCtx, input)`; on non-nil error it logs and
returns; on nil response it returns; otherwise it builds
`NewOutputMessage(input.ReplyTo(), res.Content)` and calls `bot.SendMessage`.
The Respond outcome is abstracted as the pair of its response and error
returns. -/
def respondJob (input : Input) (res : Option ExecResult) (err : Option String) :
    List JobAction :=
  match err with
  | some e => [JobAction.logAt Gitter.Severity.error ("error on message handling: " ++ e)]
  | none =>
    match res with
    | none => []
    | some r => [JobAction.sendMessage (NewOutputMessage input.replyTo r.content)]

/-- Shallow embedding of what `Runner.respond` does with one received Input:
it wraps the job closure and hands it to `runner.EnqueueJob`, which is a
pass-through to the Worker Pool queue. -/
def inputDispatch (input : Input) (res : Option ExecResult) (err : Option String) :
    WorkDispatch :=
  WorkDispatch.viaWorkerPool (respondJob input res err)

/-- Whether a job action is a `bot.SendMessage` call. -/
def JobAction.isSend : JobAction → Bool
  | JobAction.sendMessage _ => true
  | _ => false

/-- Shallow embedding of the cron registration loop of `Runner.Run` under the
Go loop-variable semantics the module declares (go.mod says `go 1.11`, so the
range variable `task` is a single variable shared by every iteration, and
each closure passed to `cron.AddFunc` captures that variable by reference).
The schedule argument `task.config.Schedule()` is evaluated eagerly at
registration time, so each cron entry is keyed by its own schedule; the
closure body reads the shared variable when cron later fires, i.e. after the
loop has finished, when it holds the last task of the list. Each entry is the
pair of its schedule string and the task its callback will execute at fire
time. -/
def cronRegisteredEntries (tasks : List Task) : List (String × Option Task) :=
  tasks.map (fun t => (t.schedule, tasks.getLast?))

/-- An error received on a Bot error channel by `stopUnrecoverableBot`:
either a `*BotNonContinuableError` or any other error type. -/
inductive SarahErr where
  | nonContinuable (msg : String)
  | generic (msg : String)
  deriving DecidableEq, Repr

/-- One observable action of the fatal-error watch loop: a log call, or the
invocation of the `context.CancelFunc` for the Bot identified by
`target`. -/
inductive WatchAction where
  | logAt (sev : Gitter.Severity) (msg : String)
  | cancel (target : Nat)
  deriving DecidableEq, Repr

/-- Shallow embedding of `stopUnrecoverableBot` for the Bot whose cancel
function is indexed by `stopTarget` (in `Runner.Run` every Bot gets its own
watch goroutine holding only its own `cancelBot`): the loop receives errors;
on a `*BotNonContinuableError` it logs at error severity, invokes the cancel
function and returns; the type switch has no other case and no default, so
every other error is dropped without any action and the loop continues
listening. -/
def stopUnrecoverableBot (stopTarget : Nat) : List SarahErr → List WatchAction
  | [] => []
  | SarahErr.nonContinuable m :: _ =>
    [WatchAction.logAt Gitter.Severity.error ("stop unrecoverable bot: " ++ m),
     WatchAction.cancel stopTarget]
  | SarahErr.generic _ :: rest => stopUnrecoverableBot stopTarget rest

/-- Spec-side helper (C5): the message of the first non-continuable error in
the consumed error trace, if any. -/
def firstNonContinuable : List SarahErr → Option String
  | [] => none
  | SarahErr.nonContinuable m :: _ => some m
  | SarahErr.generic _ :: rest => firstNonContinuable rest

end Sarah

/-- C1: the receive loop skips keep-alives silently, logs and skips malformed
payloads, forwards every successful message in order, and returns exactly at
the first fatal error; keep-alive and malformed payloads never terminate it. -/
theorem c1_receive_loop_classification (evs : List Gitter.RecvResult) :
    Gitter.receiveMessageRecursive evs =
      ⟨Gitter.specForwarded evs, Gitter.specWarnings evs, Gitter.specResult evs⟩ := by
  induction evs with
  | nil => rfl
  | cons e rest ih =>
    cases e with
    | msg m =>
      simp [Gitter.receiveMessageRecursive, Gitter.specForwarded, Gitter.specWarnings,
        Gitter.specResult, Gitter.RecvResult.isFatal, List.takeWhile, List.dropWhile, ih]
    | emptyPayload =>
      simp [Gitter.receiveMessageRecursive, Gitter.specForwarded, Gitter.specWarnings,
        Gitter.specResult, Gitter.RecvResult.isFatal, List.takeWhile, List.dropWhile, ih]
    | malformed d =>
      simp [Gitter.receiveMessageRecursive, Gitter.specForwarded, Gitter.specWarnings,
        Gitter.specResult, Gitter.RecvResult.isFatal, List.takeWhile, List.dropWhile, ih]
    | fatal e =>
      simp [Gitter.receiveMessageRecursive, Gitter.specForwarded, Gitter.specWarnings,
        Gitter.specResult, Gitter.RecvResult.isFatal, List.takeWhile, List.dropWhile]

/-- C2 counterexample: RegisterBot performs no duplicate BotType check. After
registering a Bot of BotType gitter, registering a second Bot of the same
BotType through RegisterBot succeeds and stores both, so the registration
does not fail fatally and startup is not halted. -/
theorem c2_counterexample_registerBot_accepts_duplicate :
    (((Sarah.Runner.mk []).registerBot ⟨"gitter", "d1"⟩).registerBot ⟨"gitter", "d2"⟩).bots =
      [⟨"gitter", "d1"⟩, ⟨"gitter", "d2"⟩] := rfl

/-- C2 amended: RegisterAdapter fails fatally (panics, before Runner.Run
starts any goroutine) exactly when a previously stored Bot shares the
BotType of the given Adapter, storing nothing; otherwise it appends the
wrapped Bot; RegisterBot itself appends unconditionally with no duplicate
check. -/
theorem c2_registration_duplicate_handling (r : Sarah.Runner) (a : Sarah.AdapterHandle)
    (dir : String) :
    ((∃ b ∈ r.bots, b.botType = a.botType) →
      r.registerAdapter a dir =
        Except.error ("BotType (" ++ a.botType ++ ") conflicted with stored Adapter."))
    ∧ ((∀ b ∈ r.bots, b.botType ≠ a.botType) →
      r.registerAdapter a dir = Except.ok ⟨r.bots ++ [Sarah.newBot a dir]⟩)
    ∧ (∀ b : Sarah.Bot, (r.registerBot b).bots = r.bots ++ [b]) := by
  refine ⟨?_, ?_, fun b => rfl⟩
  · rintro ⟨b, hb, hbt⟩
    have hany : r.bots.any (fun b0 => b0.botType == a.botType) = true := by
      rw [List.any_eq_true]
      exact ⟨b, hb, by simp [hbt]⟩
    simp [Sarah.Runner.registerAdapter, hany]
  · intro h
    have hany : r.bots.any (fun b0 => b0.botType == a.botType) = false := by
      rw [List.any_eq_false]
      intro b hb
      simp [h b hb]
    simp [Sarah.Runner.registerAdapter, hany, Sarah.Runner.registerBot]

/-- C2 witness: with a gitter Bot already stored, RegisterAdapter of a gitter
Adapter fails with the conflict panic message. -/
theorem c2_registration_witness :
    (Sarah.Runner.mk [⟨"gitter", "d1"⟩]).registerAdapter ⟨"gitter"⟩ "d2" =
      Except.error ("BotType (" ++ "gitter" ++ ") conflicted with stored Adapter.") :=
  (c2_registration_duplicate_handling ⟨[⟨"gitter", "d1"⟩]⟩ ⟨"gitter"⟩ "d2").1
    ⟨⟨"gitter", "d1"⟩, by simp, rfl⟩

/-- C3 counterexample: a cron firing for a scheduled task runs the closure
body directly in the cron scheduler goroutine; it is not an enqueue onto the
Worker Pool (the dispatch is `directInCaller`, not `viaWorkerPool`). -/
theorem c3_counterexample_cron_bypasses_pool :
    Sarah.cronFiring ⟨"timer", "@daily", "room1"⟩ (Except.ok none) =
      Sarah.WorkDispatch.directInCaller [Sarah.JobAction.executeTask "timer"] := rfl

/-- C3 amended: a cron firing executes the ScheduledTask directly in the cron
scheduler goroutine, bypassing the Worker Pool queue; when the task yields
output it calls SendMessage with the task destination and the result content;
an execution error is logged and nothing is sent. -/
theorem c3_cron_firing_direct_execution (task : Sarah.Task) (e : String)
    (res : Sarah.ExecResult) :
    Sarah.cronFiring task (Except.ok (some res)) =
      Sarah.WorkDispatch.directInCaller
        [Sarah.JobAction.executeTask task.identifier,
         Sarah.JobAction.sendMessage (Sarah.NewOutputMessage task.destination res.content)]
    ∧ Sarah.cronFiring task (Except.ok none) =
      Sarah.WorkDispatch.directInCaller [Sarah.JobAction.executeTask task.identifier]
    ∧ Sarah.cronFiring task (Except.error e) =
      Sarah.WorkDispatch.directInCaller
        [Sarah.JobAction.executeTask task.identifier,
         Sarah.JobAction.logAt Gitter.Severity.error
           ("error on scheduled task: " ++ task.identifier)] :=
  ⟨rfl, rfl, rfl⟩

/-- C4: evaluation of the cron registration loop at two scheduled tasks. The
module declares go 1.11, so the range variable `task` is shared across
iterations and every `cron.AddFunc` closure reads it at fire time, after the
loop finished; hence the entry registered under the morning schedule executes
the evening task, not its own. -/
theorem c4_shared_loop_variable_eval :
    Sarah.cronRegisteredEntries
        [⟨"morning", "0 9 * * *", "roomA"⟩, ⟨"evening", "0 18 * * *", "roomB"⟩] =
      [("0 9 * * *", some ⟨"evening", "0 18 * * *", "roomB"⟩),
       ("0 18 * * *", some ⟨"evening", "0 18 * * *", "roomB"⟩)] := rfl

/-- C5 counterexample: an error that is not a BotNonContinuableError produces
no action at all from the watch loop — in particular it is not logged,
contrary to the claim. -/
theorem c5_counterexample_generic_error_not_logged :
    Sarah.stopUnrecoverableBot 0 [Sarah.SarahErr.generic "network blip"] = [] := rfl

/-- C5 amended: the watch loop scans the received errors; the first
BotNonContinuableError is logged at error severity and triggers exactly the
cancel function of the originating Bot (index `i`), after which the goroutine
returns; every other error type is silently discarded — not logged — and the
loop keeps listening; a generic error never causes cancellation. -/
theorem c5_watch_loop_classification (i : Nat) (errs : List Sarah.SarahErr) :
    Sarah.stopUnrecoverableBot i errs =
      (match Sarah.firstNonContinuable errs with
       | some m =>
         [Sarah.WatchAction.logAt Gitter.Severity.error ("stop unrecoverable bot: " ++ m),
          Sarah.WatchAction.cancel i]
       | none => []) := by
  induction errs with
  | nil => rfl
  | cons e rest ih =>
    cases e with
    | nonContinuable m => rfl
    | generic m =>
      simpa [Sarah.stopUnrecoverableBot, Sarah.firstNonContinuable] using ih

/-- C6 counterexample: with a successful initial room fetch, Run pushes
nothing onto errCh, spawns the per-room goroutine and returns without any
blocking wait on the context — it does not block until cancellation. -/
theorem c6_counterexample_run_returns_early :
    Gitter.adapterRun (Gitter.FetchResult.ok [⟨"room1"⟩]) = ⟨[], [⟨"room1"⟩], true⟩ := rfl

/-- C6 amended: Run never blocks. On initial-fetch failure it pushes a
non-continuable fatal error marker onto errCh and returns without connecting
to any room; on success it spawns one receive goroutine per fetched room and
returns immediately; in both cases the (total) function returns and never
panics. -/
theorem c6_run_behaviour (rooms : List Gitter.Room) (e : String) :
    Gitter.adapterRun (Gitter.FetchResult.failed e) =
      ⟨[Gitter.RoomAction.pushFatalToErrCh e], [], true⟩
    ∧ Gitter.adapterRun (Gitter.FetchResult.ok rooms) = ⟨[], rooms, true⟩ :=
  ⟨rfl, rfl⟩

/-- Helper: the per-room loop never pushes anything onto the Adapter error
channel, whatever the iteration script. -/
theorem runEachRoom_never_pushes_errCh (script : List Gitter.RoomIter) (e : String) :
    Gitter.RoomAction.pushFatalToErrCh e ∉ (Gitter.runEachRoom script).1 := by
  induction script with
  | nil => simp [Gitter.runEachRoom]
  | cons it rest ih =>
    by_cases hc : it.ctxCancelled
    · simp [Gitter.runEachRoom, hc]
    · by_cases hk : it.connectOk
      · cases hr : it.recvErr with
        | none => simp [Gitter.runEachRoom, hc, hk, hr]
        | some er => simpa [Gitter.runEachRoom, hc, hk, hr] using ih
      · simp [Gitter.runEachRoom, hc, hk]

/-- C7: in the per-room loop, a cancelled context at the top of an iteration
exits without reconnecting; a receive error closes the connection, logs, and
re-enters the connecting state (the loop recurses); a nil receive result
closes the connection and exits without reconnecting; a failed connect step
(retry budget exhausted) exits the loop; and no iteration script ever pushes
a fatal error onto any channel. -/
theorem c7_reconnect_discipline (it : Gitter.RoomIter) (rest : List Gitter.RoomIter)
    (e : String) :
    (it.ctxCancelled = true → Gitter.runEachRoom (it :: rest) = ([], Gitter.RoomExit.ctxDone))
    ∧ (it.ctxCancelled = false → it.connectOk = true → it.recvErr = some e →
        Gitter.runEachRoom (it :: rest) =
          (Gitter.RoomAction.connected :: Gitter.RoomAction.closedConn ::
            Gitter.RoomAction.logConnErr e :: (Gitter.runEachRoom rest).1,
           (Gitter.runEachRoom rest).2))
    ∧ (it.ctxCancelled = false → it.connectOk = true → it.recvErr = none →
        Gitter.runEachRoom (it :: rest) =
          ([Gitter.RoomAction.connected, Gitter.RoomAction.closedConn],
           Gitter.RoomExit.cleanClose))
    ∧ (it.ctxCancelled = false → it.connectOk = false →
        Gitter.runEachRoom (it :: rest) =
          ([Gitter.RoomAction.warnNoConnect], Gitter.RoomExit.connectFailed))
    ∧ (∀ script : List Gitter.RoomIter, ∀ e2 : String,
        Gitter.RoomAction.pushFatalToErrCh e2 ∉ (Gitter.runEachRoom script).1) := by
  refine ⟨?_, ?_, ?_, ?_, fun script e2 => runEachRoom_never_pushes_errCh script e2⟩
  · intro hc
    simp [Gitter.runEachRoom, hc]
  · intro hc hk hr
    simp [Gitter.runEachRoom, hc, hk, hr]
  · intro hc hk hr
    simp [Gitter.runEachRoom, hc, hk, hr]
  · intro hc hk
    simp [Gitter.runEachRoom, hc, hk]

/-- C7 witness: one iteration with a live context, a successful connect and a
receive error, followed by an iteration with a cancelled context: the loop
closes the connection, logs the error, re-enters, and then exits on the
cancelled context without reconnecting. -/
theorem c7_reconnect_witness :
    Gitter.runEachRoom [⟨false, true, some "conn reset"⟩, ⟨true, true, none⟩] =
      ([Gitter.RoomAction.connected, Gitter.RoomAction.closedConn,
        Gitter.RoomAction.logConnErr "conn reset"], Gitter.RoomExit.ctxDone) := by
  have h :=
    (c7_reconnect_discipline ⟨false, true, some "conn reset"⟩ [⟨true, true, none⟩]
      "conn reset").2.1 rfl rfl rfl
  rw [h]
  simp [Gitter.runEachRoom]

/-- Helper: if the first `k` attempts fail and attempt `k` (0-based) is the
first success, the retry driver stops right after it. -/
theorem retryGo_first_success (att : Nat → Except String Nat) :
    ∀ (fuel k i : Nat), k < fuel →
      (∀ j, j < k → Gitter.exceptOk (att (i + j)) = false) →
      Gitter.exceptOk (att (i + k)) = true →
      Gitter.retryGo att fuel i = (att (i + k), i + k + 1) := by
  intro fuel
  induction fuel with
  | zero => intro k i hk _ _; omega
  | succ f ih =>
    intro k i hk hfail hok
    cases k with
    | zero =>
      cases h : att i with
      | ok a => simp [Gitter.retryGo, h]
      | error e =>
        exfalso
        have := hok
        simp [h, Gitter.exceptOk] at this
    | succ k0 =>
      have h0 : Gitter.exceptOk (att i) = false := by
        have := hfail 0 (by omega)
        simpa using this
      cases h : att i with
      | ok a => simp [h, Gitter.exceptOk] at h0
      | error e =>
        have hfne : ¬ f = 0 := by omega
        have hrec := ih k0 (i + 1) (by omega)
          (fun j hj => by
            have := hfail (j + 1) (by omega)
            rwa [show i + (j + 1) = i + 1 + j from by omega] at this)
          (by rwa [show i + (k0 + 1) = i + 1 + k0 from by omega] at hok)
        rw [show i + 1 + k0 = i + (k0 + 1) from by omega] at hrec
        simpa [Gitter.retryGo, h, hfne] using hrec

/-- Helper: if every attempt the budget allows fails, the retry driver
performs exactly `fuel` attempts and returns the last failure. -/
theorem retryGo_all_fail (att : Nat → Except String Nat) :
    ∀ (fuel i : Nat), 1 ≤ fuel →
      (∀ j, j < fuel → Gitter.exceptOk (att (i + j)) = false) →
      Gitter.retryGo att fuel i = (att (i + fuel - 1), i + fuel) := by
  intro fuel
  induction fuel with
  | zero => intro i h _; omega
  | succ f ih =>
    intro i _ hfail
    have h0 : Gitter.exceptOk (att i) = false := by
      have := hfail 0 (by omega)
      simpa using this
    cases h : att i with
    | ok a => simp [h, Gitter.exceptOk] at h0
    | error e =>
      cases f with
      | zero => simp [Gitter.retryGo, h]
      | succ f0 =>
        have hrec := ih (i + 1) (by omega)
          (fun j hj => by
            have := hfail (j + 1) (by omega)
            rwa [show i + (j + 1) = i + 1 + j from by omega] at this)
        rw [show i + 1 + (f0 + 1) - 1 = i + (f0 + 1 + 1) - 1 from by omega,
          show i + 1 + (f0 + 1) = i + (f0 + 1 + 1) from by omega] at hrec
        simpa [Gitter.retryGo, h] using hrec

/-- C8: for the connect step (connectRoom, and likewise fetchRooms) with
retry budget 10: if the first `k < 10` attempts fail and attempt `k + 1`
succeeds, the connection is established exactly once with no attempt beyond
`k + 1`; after 10 consecutive failures the step returns the last failure and
performs exactly 10 attempts. -/
theorem c8_connect_retry_budget (att : Nat → Except String Nat) (k : Nat) :
    (k < 10 → (∀ j, j < k → Gitter.exceptOk (att j) = false) →
      Gitter.exceptOk (att k) = true →
      Gitter.connectRoom att = (att k, k + 1) ∧ Gitter.fetchRooms att = (att k, k + 1))
    ∧ ((∀ j, j < 10 → Gitter.exceptOk (att j) = false) →
      Gitter.connectRoom att = (att 9, 10) ∧ Gitter.fetchRooms att = (att 9, 10)) := by
  constructor
  · intro hk hfail hok
    have h := retryGo_first_success att 10 k 0 hk (by simpa using hfail) (by simpa using hok)
    simp only [Nat.zero_add] at h
    exact ⟨h, h⟩
  · intro hfail
    have h := retryGo_all_fail att 10 0 (by omega) (by simpa using hfail)
    simp only [Nat.zero_add] at h
    exact ⟨h, h⟩

/-- C8 witness: with the first three attempts failing and the fourth
succeeding, connectRoom returns the fourth attempt outcome after exactly four
attempts. -/
theorem c8_retry_witness :
    Gitter.connectRoom (fun i => if i < 3 then Except.error "connect failed" else Except.ok 7) =
      (Except.ok 7, 4) := by
  have h := (c8_connect_retry_budget
    (fun i => if i < 3 then Except.error "connect failed" else Except.ok 7) 3).1
    (by decide) (by decide) (by decide)
  exact h.1

/-- C9: the job enqueued by the dispatch loop calls SendMessage exactly once,
with the response content and the reply-target of the Input, precisely when
Respond returned a non-nil response and a nil error; an error or a nil
response yields no SendMessage call, an error is only logged, and the work is
always handed to the Worker Pool. -/
theorem c9_respond_job_classification (input : Sarah.Input) (res : Option Sarah.ExecResult)
    (err : Option String) (r : Sarah.ExecResult) :
    (err = none → res = some r →
      Sarah.respondJob input res err =
        [Sarah.JobAction.sendMessage (Sarah.NewOutputMessage input.replyTo r.content)])
    ∧ (err = none → res = none → Sarah.respondJob input res err = [])
    ∧ (∀ e, err = some e →
      Sarah.respondJob input res err =
        [Sarah.JobAction.logAt Gitter.Severity.error ("error on message handling: " ++ e)])
    ∧ Sarah.inputDispatch input res err =
        Sarah.WorkDispatch.viaWorkerPool (Sarah.respondJob input res err)
    ∧ ((Sarah.respondJob input res err).any Sarah.JobAction.isSend = true ↔
        err = none ∧ res.isSome = true) := by
  refine ⟨?_, ?_, ?_, rfl, ?_⟩
  · rintro rfl rfl; rfl
  · rintro rfl rfl; rfl
  · rintro e rfl; rfl
  · cases err <;> cases res <;> simp [Sarah.respondJob, Sarah.JobAction.isSend]

/-- C9 witness: the ping Input with reply target user1 and the pong response
produce exactly one SendMessage with content pong addressed to user1. -/
theorem c9_respond_witness :
    Sarah.respondJob ⟨"ping", "user1"⟩ (some ⟨"pong"⟩) none =
      [Sarah.JobAction.sendMessage ⟨"user1", "pong"⟩] :=
  (c9_respond_job_classification ⟨"ping", "user1"⟩ (some ⟨"pong"⟩) none ⟨"pong"⟩).1 rfl rfl

/-- C10: SendMessage posts to the REST client exactly when the output content
is a string and the destination asserts to a Room; string content with any
other destination logs at error severity, non-string content logs a warning
whatever the destination, and the function always returns a plain action
list — no error, no panic. -/
theorem c10_send_message_classification (s t tag : String) (r : Gitter.Room)
    (o : Gitter.BotOutput) :
    Gitter.sendMessage ⟨Gitter.OutputContent.str s, Gitter.OutputDestination.room r⟩ =
      [Gitter.SendAction.postMessage r s]
    ∧ Gitter.sendMessage ⟨Gitter.OutputContent.str s, Gitter.OutputDestination.nonRoom tag⟩ =
      [Gitter.SendAction.logAt Gitter.Severity.error
        ("Destination is not instance of Room. " ++ tag)]
    ∧ (∀ d, Gitter.sendMessage ⟨Gitter.OutputContent.nonString t, d⟩ =
        [Gitter.SendAction.logAt Gitter.Severity.warn ("unexpected output " ++ t)])
    ∧ ((∃ r0 c, Gitter.sendMessage o = [Gitter.SendAction.postMessage r0 c]) ↔
        ∃ s0 r0, o.content = Gitter.OutputContent.str s0 ∧
          o.destination = Gitter.OutputDestination.room r0) := by
  refine ⟨rfl, rfl, fun d => rfl, ?_⟩
  obtain ⟨c, d⟩ := o
  cases c <;> cases d <;> simp [Gitter.sendMessage]
